import Mathlib

/-!
Verification development for the "Breathing Cosmos" breath-driven generative
engine.  The JavaScript sources (src/utils.js, the breathing detector, the
nebula particle field in src/visuals/nebula.js, and the audio synthesizer /
engine in src/audio) are shallowly embedded below: JS numbers are modelled by
the real numbers, except in the pure color/palette utilities where every
operation (floor, round, integer channel arithmetic, hex-string parsing and
printing) is exact on the rationals, so those are modelled over the rationals
and kept computable.  Stateful classes become Lean structures with explicit
state-passing updates; calls to the ambient random generator are modelled by
an explicit stream of draw values threaded through the functions; event
emission is modelled by returning the list of emitted events alongside the
new state.
-/

namespace BreathingCosmos

/-! ## src/utils.js: math utilities -/

/-- Source utils.js lerp: start + (end - start) * t (generic so that it can be
used both at the rationals, for the exact color math, and at the reals). -/
def lerp {R : Type} [Ring R] (start stop t : R) : R :=
  start + (stop - start) * t

/-- Source utils.js clamp: Math.min(Math.max(value, min), max). -/
def clamp {R : Type} [LinearOrder R] (value lo hi : R) : R :=
  min (max value lo) hi

/-- Source utils.js Easing.easeInOutSine: -(Math.cos(Math.PI * t) - 1) / 2. -/
noncomputable def easeInOutSine (t : ℝ) : ℝ :=
  -(Real.cos (Real.pi * t) - 1) / 2

/-! ## src/utils.js: color utilities -/

/-- Source utils.js ColorPalettes object: lookup of a palette name, returning
none for an unknown key (JS property access yielding undefined). -/
def ColorPalettes (name : String) : Option (List String) :=
  if name = "deepSpace" then
    some ["#0a0e1a", "#1a1f3a", "#2d1b69", "#5a189a", "#9d4edd"]
  else if name = "solarFlare" then
    some ["#1a0e00", "#4a1c00", "#ff6b35", "#ffa500", "#ffd700"]
  else if name = "northernLights" then
    some ["#001a1a", "#003d3d", "#00ffc8", "#00ff88", "#88ffaa"]
  else if name = "lunarGlow" then
    some ["#0a0a0f", "#1a1a2e", "#c0c0d0", "#e0e0f0", "#ffffff"]
  else none

/-- Value of one hexadecimal digit, case insensitive (the regex character
class used by hexToRgb admits digits and a-f in either case). -/
def hexDigitVal (c : Char) : Option ℕ :=
  if '0' ≤ c ∧ c ≤ '9' then some (c.toNat - '0'.toNat)
  else if 'a' ≤ c ∧ c ≤ 'f' then some (c.toNat - 'a'.toNat + 10)
  else if 'A' ≤ c ∧ c ≤ 'F' then some (c.toNat - 'A'.toNat + 10)
  else none

/-- Source utils.js hexToRgb: parse an optional leading hash followed by
exactly six hex digits into the three channel values; null on mismatch. -/
def hexToRgb (hex : String) : Option (ℕ × ℕ × ℕ) :=
  let cs := if hex.data.head? = some '#' then hex.data.tail else hex.data
  match cs with
  | [c1, c2, c3, c4, c5, c6] =>
    match hexDigitVal c1, hexDigitVal c2, hexDigitVal c3,
          hexDigitVal c4, hexDigitVal c5, hexDigitVal c6 with
    | some r1, some r2, some g1, some g2, some b1, some b2 =>
      some (r1 * 16 + r2, g1 * 16 + g2, b1 * 16 + b2)
    | _, _, _, _, _, _ => none
  | _ => none

/-- Source utils.js rgbToHex: "#" + ((1 << 24) + (r << 16) + (g << 8) + b)
printed in base 16 with the leading "1" sliced off (channels are the 0..255
values produced by hexToRgb / rounded channel interpolation). -/
def rgbToHex (r g b : ℕ) : String :=
  "#" ++ (String.mk (Nat.toDigits 16 (2 ^ 24 + r * 2 ^ 16 + g * 2 ^ 8 + b))).drop 1

/-- Source utils.js lerpColor: per-channel linear interpolation with
Math.round, falling back to the first color when either fails to parse.
The interpolation parameter is exact rational arithmetic. -/
def lerpColor (color1 color2 : String) (t : ℚ) : String :=
  match hexToRgb color1, hexToRgb color2 with
  | some p1, some p2 =>
    rgbToHex (round (lerp (p1.1 : ℚ) p2.1 t)).toNat
      (round (lerp (p1.2.1 : ℚ) p2.2.1 t)).toNat
      (round (lerp (p1.2.2 : ℚ) p2.2.2 t)).toNat
  | _, _ => color1

/-- The stop list actually used for a palette name: the looked-up palette or
the deepSpace fallback (JS: ColorPalettes[palette] || ColorPalettes.deepSpace). -/
def paletteStops (palette : String) : List String :=
  (ColorPalettes palette).getD ["#0a0e1a", "#1a1f3a", "#2d1b69", "#5a189a", "#9d4edd"]

/-- Source utils.js getColorFromPalette: scale t by (length - 1), take the
stop at the floored index and blend toward the next stop; at or past the top
index return the last stop; unknown palettes fall back to deepSpace. -/
def getColorFromPalette (palette : String) (t : ℚ) : String :=
  let paletteColors := paletteStops palette
  let scaledT : ℚ := t * ((paletteColors.length : ℚ) - 1)
  let index : ℤ := ⌊scaledT⌋
  let localT : ℚ := scaledT - index
  if index ≥ (paletteColors.length : ℤ) - 1 then
    paletteColors.getD (paletteColors.length - 1) ""
  else
    lerpColor (paletteColors.getD index.toNat "")
      (paletteColors.getD (index.toNat + 1) "") localT

/-- What a JS property read ColorPalettes[name] can find: one of the object's
own palette entries (an Array of hex strings), or a member inherited from
Object.prototype (toString, constructor, hasOwnProperty, ...), which is a
truthy function or object, not an array. -/
inductive JsVal where
  | arr (stops : List String)
  | protoMember
  deriving DecidableEq, Repr

/-- The property names the ColorPalettes object literal inherits from
Object.prototype, all bound to truthy function/object values. -/
def objectPrototypeKeys : List String :=
  ["constructor", "hasOwnProperty", "isPrototypeOf", "propertyIsEnumerable",
   "toLocaleString", "toString", "valueOf", "__defineGetter__", "__defineSetter__",
   "__lookupGetter__", "__lookupSetter__", "__proto__"]

/-- The full JS semantics of the property read ColorPalettes[name]: an own
palette key yields its stop array, a name inherited from Object.prototype
yields that truthy member, and any other name yields undefined (none). -/
def colorPalettesLookup (name : String) : Option JsVal :=
  match ColorPalettes name with
  | some stops => some (JsVal.arr stops)
  | none => if name ∈ objectPrototypeKeys then some JsVal.protoMember else none

/-- Source utils.js getColorFromPalette under full JS property-lookup
semantics, with undefined results modelled as none.  When the read finds an
own array or nothing, the || deepSpace fallback and the sampling body are
exactly getColorFromPalette above.  When the read finds an inherited
Object.prototype member, that member is truthy, so the || keeps it instead
of the deepSpace fallback, and every branch of the body then produces
undefined: numeric indexing into a function or plain object yields
undefined in the at-or-past-the-top branch, and in the blend branch
lerpColor(undefined, undefined, t) fails to parse both colors and returns
its first argument, again undefined. -/
def getColorFromPaletteJs (palette : String) (t : ℚ) : Option String :=
  match colorPalettesLookup palette with
  | some JsVal.protoMember => none
  | _ => some (getColorFromPalette palette t)

/-! ## Breathing detector (BREATHING DETECTION source file)

State machine converting a raw intensity signal into phases and cycle
counts.  DOM wiring (_setupManualControls) and microphone acquisition are
external; the per-tick analyser buffer contents are modelled as an optional
list of byte values stored in the detector (none when the analyser or data
array is missing), and the input edge handlers are reflected by the
isPressed / targetIntensity fields they set. -/

/-- Source BreathPhase enumeration. -/
inductive BreathPhase where
  | inhale
  | hold_in
  | exhale
  | hold_out
  deriving DecidableEq, Repr

/-- The detector's mode string: 'manual', 'mic' or 'guided'. -/
inductive BreathMode where
  | manual
  | mic
  | guided
  deriving DecidableEq, Repr

/-- The this.state object of BreathingDetector. -/
structure BreathState where
  phase : BreathPhase
  intensity : ℝ
  duration : ℝ
  totalCycles : ℕ
  isActive : Bool

/-- A guided pattern such as (inhale 4, holdIn 7, exhale 8, holdOut 0). -/
structure GuidedPattern where
  inhale : ℝ
  holdIn : ℝ
  exhale : ℝ
  holdOut : ℝ

/-- Events emitted through _emitEvent (phaseChange carries the new phase). -/
inductive DetEvent where
  | phaseChange (phase : BreathPhase)
  | cycleComplete
  deriving DecidableEq, Repr

/-- Mutable fields of BreathingDetector that the update path touches. -/
structure BreathingDetector where
  mode : BreathMode
  state : BreathState
  isPressed : Bool
  targetIntensity : ℝ
  micData : Option (List ℕ)
  guidedPattern : Option GuidedPattern
  guidedTimer : ℝ
  smoothingFactor : ℝ
  transitionSpeed : ℝ

/-- Source _updateFromMicrophone: RMS of the analyser byte buffer, mapped by
rms / 128 and clamped to the unit interval; the target is re-aimed only when
the change from the current intensity exceeds the 0.01 deadband.  Returns the
detector unchanged when the analyser or buffer is missing. -/
noncomputable def updateFromMicrophone (d : BreathingDetector) : BreathingDetector :=
  match d.micData with
  | none => d
  | some buf =>
    let sum : ℝ := (buf.map fun v => (v : ℝ) * (v : ℝ)).sum
    let rms : ℝ := Real.sqrt (sum / (buf.length : ℝ))
    let rawIntensity : ℝ := clamp (rms / 128) 0 1
    let delta : ℝ := rawIntensity - d.state.intensity
    if |delta| > 0.01 then { d with targetIntensity := rawIntensity } else d

/-- Source _updateFromGuided: advance the pattern timer, wrap it to zero at
the cycle total (emitting cycleComplete), then derive the phase and target
intensity from the elapsed time within the cycle. -/
noncomputable def updateFromGuided (d : BreathingDetector) (deltaTime : ℝ) :
    BreathingDetector × List DetEvent :=
  match d.guidedPattern with
  | none => (d, [])
  | some p =>
    let t0 : ℝ := d.guidedTimer + deltaTime
    let totalTime : ℝ := p.inhale + p.holdIn + p.exhale + p.holdOut
    let elapsed : ℝ := if t0 ≥ totalTime then 0 else t0
    let evs : List DetEvent := if t0 ≥ totalTime then [DetEvent.cycleComplete] else []
    if elapsed < p.inhale then
      ({ d with guidedTimer := elapsed,
                targetIntensity := easeInOutSine (elapsed / p.inhale),
                state := { d.state with phase := BreathPhase.inhale } }, evs)
    else if elapsed < p.inhale + p.holdIn then
      ({ d with guidedTimer := elapsed, targetIntensity := 1,
                state := { d.state with phase := BreathPhase.hold_in } }, evs)
    else if elapsed < p.inhale + p.holdIn + p.exhale then
      ({ d with guidedTimer := elapsed,
                targetIntensity := 1 - easeInOutSine ((elapsed - p.inhale - p.holdIn) / p.exhale),
                state := { d.state with phase := BreathPhase.exhale } }, evs)
    else
      ({ d with guidedTimer := elapsed, targetIntensity := 0,
                state := { d.state with phase := BreathPhase.hold_out } }, evs)

/-- The mode dispatch at the top of update (manual mode's target intensity is
set by the input handlers, so update leaves it alone). -/
noncomputable def applyMode (d : BreathingDetector) (deltaTime : ℝ) :
    BreathingDetector × List DetEvent :=
  match d.mode with
  | BreathMode.mic => (updateFromMicrophone d, [])
  | BreathMode.guided => updateFromGuided d deltaTime
  | BreathMode.manual => (d, [])

/-- The smoothing and bookkeeping part of update: move intensity one
smoothing step toward the target, clamp it to the unit interval, and
accumulate the time spent in the current phase. -/
noncomputable def smoothStep (d : BreathingDetector) (deltaTime : ℝ) : BreathingDetector :=
  { d with state :=
    { d.state with
      intensity := clamp
        (d.state.intensity + (d.targetIntensity - d.state.intensity) * d.smoothingFactor) 0 1,
      duration := d.state.duration + deltaTime } }

/-- Source threshold classification used for manual/mic modes. -/
noncomputable def classifyPhase (intensity : ℝ) : BreathPhase :=
  if intensity > 0.8 then BreathPhase.inhale
  else if intensity > 0.6 then BreathPhase.hold_in
  else if intensity > 0.2 then BreathPhase.exhale
  else BreathPhase.hold_out

/-- The phase-detection block of update (runs only for non-guided modes):
on a change reset the phase duration and emit phaseChange; on an
exhale-to-inhale change additionally count the cycle and emit cycleComplete. -/
noncomputable def detectStep (d : BreathingDetector) : BreathingDetector × List DetEvent :=
  let newPhase := classifyPhase d.state.intensity
  if newPhase = d.state.phase then
    ({ d with state := { d.state with phase := newPhase } }, [])
  else if d.state.phase = BreathPhase.exhale ∧ newPhase = BreathPhase.inhale then
    ({ d with state := { d.state with
          phase := newPhase
          duration := 0
          totalCycles := d.state.totalCycles + 1 } },
      [DetEvent.phaseChange newPhase, DetEvent.cycleComplete])
  else
    ({ d with state := { d.state with phase := newPhase, duration := 0 } },
      [DetEvent.phaseChange newPhase])

/-- Source BreathingDetector.update: no-op while inactive; otherwise mode
dispatch, intensity smoothing and clamping, duration accumulation, and the
threshold phase detection for the non-guided modes.  Returns the new
detector together with the events emitted during the call, in order. -/
noncomputable def detUpdate (d : BreathingDetector) (deltaTime : ℝ) :
    BreathingDetector × List DetEvent :=
  if d.state.isActive = false then (d, [])
  else
    let step1 := applyMode d deltaTime
    let d2 := smoothStep step1.1 deltaTime
    match d2.mode with
    | BreathMode.guided => (d2, step1.2)
    | _ =>
      let step2 := detectStep d2
      (step2.1, step1.2 ++ step2.2)

/-- The BreathingDetector constructor state: manual mode, exhale phase at
intensity 0.5, inactive, no microphone or guided pattern, smoothing factor
0.15 and transition speed 2. -/
noncomputable def initialDetector : BreathingDetector :=
  { mode := BreathMode.manual
    state :=
      { phase := BreathPhase.exhale
        intensity := 0.5
        duration := 0
        totalCycles := 0
        isActive := false }
    isPressed := false
    targetIntensity := 0.5
    micData := none
    guidedPattern := none
    guidedTimer := 0
    smoothingFactor := 0.15
    transitionSpeed := 2 }

/-- Source setGuidedPattern: store the pattern, zero the timer and switch to
guided mode. -/
def setGuidedPattern (d : BreathingDetector) (p : GuidedPattern) : BreathingDetector :=
  { d with guidedPattern := some p, guidedTimer := 0, mode := BreathMode.guided }

/-- Source start(): set isActive. -/
def detStart (d : BreathingDetector) : BreathingDetector :=
  { d with state := { d.state with isActive := true } }

/-- The detector right after construction, setGuidedPattern with the
4-7-8-0 pattern, and start(): the concrete guided session state used by the
counterexamples. -/
noncomputable def demo478 : BreathingDetector :=
  detStart (setGuidedPattern initialDetector
    { inhale := 4, holdIn := 7, exhale := 8, holdOut := 0 })

/-! ## src/visuals/nebula.js: particle field

Vector2 is the mutable 2D vector of utils.js, embedded as a value type with
each chained mutating call becoming a pure operation.  Math.random draws are
modelled by an explicit stream of draw values consumed in source order. -/

/-- Value-typed counterpart of the utils.js Vector2. -/
structure Vector2 where
  x : ℝ
  y : ℝ

/-- Vector2.add (componentwise). -/
def Vector2.add (v w : Vector2) : Vector2 :=
  ⟨v.x + w.x, v.y + w.y⟩

/-- Vector2.multiply by a scalar. -/
def Vector2.multiply (v : Vector2) (scalar : ℝ) : Vector2 :=
  ⟨v.x * scalar, v.y * scalar⟩

/-- Vector2.magnitude: Math.sqrt(x*x + y*y). -/
noncomputable def Vector2.magnitude (v : Vector2) : ℝ :=
  Real.sqrt (v.x * v.x + v.y * v.y)

/-- Vector2.normalize: divide by the magnitude when it is positive. -/
noncomputable def Vector2.normalize (v : Vector2) : Vector2 :=
  if v.magnitude > 0 then ⟨v.x / v.magnitude, v.y / v.magnitude⟩ else v

/-- Vector2.limit: rescale to the cap when the magnitude exceeds it. -/
noncomputable def Vector2.limit (v : Vector2) (maxMag : ℝ) : Vector2 :=
  if v.magnitude > maxMag then (v.normalize).multiply maxMag else v

/-- The Math.random stream: a supply of draw values (one per Math.random
call) together with the index of the next draw. -/
structure Rng where
  seq : ℕ → ℝ
  idx : ℕ

/-- Source utils.js random(min, max): Math.random() * (max - min) + min,
consuming one draw from the stream. -/
def randomR (lo hi : ℝ) (g : Rng) : ℝ × Rng :=
  (g.seq g.idx * (hi - lo) + lo, ⟨g.seq, g.idx + 1⟩)

/-- A nebula particle (fields in constructor order). -/
structure Particle where
  position : Vector2
  velocity : Vector2
  acceleration : Vector2
  baseSize : ℝ
  size : ℝ
  maxSize : ℝ
  life : ℝ
  maxLife : ℝ
  age : ℝ
  palette : String
  colorPosition : ℝ
  twinklePhase : ℝ
  twinkleSpeed : ℝ
  opacity : ℝ

/-- The Particle constructor: random velocity in [-0.5, 0.5] per component,
base size in [1, 4] with max size three times that, lifetime in [3, 8],
color stop position in [0.3, 0.9], twinkle state and opacity, draws consumed
in source order. -/
noncomputable def newParticle (x y : ℝ) (palette : String) (g : Rng) : Particle × Rng :=
  let rvx := randomR (-0.5) 0.5 g
  let rvy := randomR (-0.5) 0.5 rvx.2
  let rbs := randomR 1 4 rvy.2
  let rml := randomR 3 8 rbs.2
  let rcp := randomR 0.3 0.9 rml.2
  let rtp := randomR 0 (Real.pi * 2) rcp.2
  let rts := randomR 1 3 rtp.2
  let rop := randomR 0.4 1 rts.2
  ({ position := ⟨x, y⟩
     velocity := ⟨rvx.1, rvy.1⟩
     acceleration := ⟨0, 0⟩
     baseSize := rbs.1
     size := rbs.1
     maxSize := rbs.1 * 3
     life := 1
     maxLife := rml.1
     age := 0
     palette := palette
     colorPosition := rcp.1
     twinklePhase := rtp.1
     twinkleSpeed := rts.1
     opacity := rop.1 }, rop.2)

/-- Source Particle.update: age the particle and recompute life; integrate
velocity (capped at magnitude 2) and position (60 FPS normalized); scale the
size with breath intensity clamped between base and max size; accumulate the
center-seeking or center-fleeing steering force into the acceleration; wrap
the position across the canvas edges; advance the twinkle phase; finally
zero the acceleration (forces are per-tick).  The JS method additionally
reports survival as life > 0; the caller filters on the life field. -/
noncomputable def Particle.update (p : Particle)
    (deltaTime breathIntensity canvasWidth canvasHeight : ℝ) : Particle :=
  let age := p.age + deltaTime
  let life := 1 - age / p.maxLife
  let vel := (p.velocity.add p.acceleration).limit 2
  let pos := p.position.add (vel.multiply (deltaTime * 60))
  let breathScale := 1 + breathIntensity * 0.8
  let size := clamp (p.baseSize * breathScale) p.baseSize p.maxSize
  let steer :=
    if breathIntensity < 0.3 then
      (Vector2.normalize ⟨canvasWidth / 2 - pos.x, canvasHeight / 2 - pos.y⟩).multiply 0.02
    else
      (Vector2.normalize ⟨pos.x - canvasWidth / 2, pos.y - canvasHeight / 2⟩).multiply
        (0.01 * breathIntensity)
  let acc := p.acceleration.add steer
  let x1 := if pos.x < 0 then canvasWidth else pos.x
  let x2 := if x1 > canvasWidth then 0 else x1
  let y1 := if pos.y < 0 then canvasHeight else pos.y
  let y2 := if y1 > canvasHeight then 0 else y1
  { p with
      position := ⟨x2, y2⟩
      velocity := vel
      acceleration := acc.multiply 0
      size := size
      life := life
      age := age
      twinklePhase := p.twinklePhase + p.twinkleSpeed * deltaTime }

/-- A static background star. -/
structure BackgroundStar where
  x : ℝ
  y : ℝ
  size : ℝ
  opacity : ℝ
  twinklePhase : ℝ
  twinkleSpeed : ℝ

/-- Source _generateBackgroundStars: count stars with random position, size,
opacity and twinkle state, draws consumed in source order. -/
noncomputable def generateBackgroundStars (canvasWidth canvasHeight : ℝ) :
    ℕ → Rng → List BackgroundStar × Rng
  | 0, g => ([], g)
  | n + 1, g =>
    let rx := randomR 0 canvasWidth g
    let ry := randomR 0 canvasHeight rx.2
    let rs := randomR 0.5 2 ry.2
    let ro := randomR 0.3 0.8 rs.2
    let rtp := randomR 0 (Real.pi * 2) ro.2
    let rts := randomR 0.5 2 rtp.2
    let rest := generateBackgroundStars canvasWidth canvasHeight n rts.2
    ({ x := rx.1, y := ry.1, size := rs.1, opacity := ro.1,
       twinklePhase := rtp.1, twinkleSpeed := rts.1 } :: rest.1, rest.2)

/-- The NebulaVisual state. -/
structure NebulaVisual where
  canvasWidth : ℝ
  canvasHeight : ℝ
  particles : List Particle
  targetParticleCount : ℕ
  maxParticles : ℕ
  palette : String
  spawnTimer : ℝ
  spawnRate : ℝ
  backgroundStars : List BackgroundStar

/-- The NebulaVisual constructor: empty particle set, target population 800
under a hard cap of 1500, deepSpace palette, 0.05 s base spawn interval and
200 freshly generated background stars. -/
noncomputable def nebulaInit (canvasWidth canvasHeight : ℝ) (g : Rng) : NebulaVisual × Rng :=
  let stars := generateBackgroundStars canvasWidth canvasHeight 200 g
  ({ canvasWidth := canvasWidth
     canvasHeight := canvasHeight
     particles := []
     targetParticleCount := 800
     maxParticles := 1500
     palette := "deepSpace"
     spawnTimer := 0
     spawnRate := 0.05
     backgroundStars := stars.1 }, stars.2)

/-- Source _spawnParticle: place a particle near the canvas center within a
radius proportional to intensity and give it an outward radial velocity
scaled by intensity. -/
noncomputable def spawnParticle (canvasWidth canvasHeight : ℝ) (palette : String)
    (breathIntensity : ℝ) (g : Rng) : Particle × Rng :=
  let centerX := canvasWidth / 2
  let centerY := canvasHeight / 2
  let rAngle := randomR 0 (Real.pi * 2) g
  let rDist := randomR 0 (100 * breathIntensity) rAngle.2
  let x := centerX + Real.cos rAngle.1 * rDist.1
  let y := centerY + Real.sin rAngle.1 * rDist.1
  let np := newParticle x y palette rDist.2
  let rSpeed := randomR 10 30 np.2
  let speed := rSpeed.1 * breathIntensity
  ({ np.1 with velocity := ⟨Real.cos rAngle.1 * speed, Real.sin rAngle.1 * speed⟩ }, rSpeed.2)

/-- The spawn while-loop of NebulaVisual.update: spend the spawn timer in
steps of the adjusted spawn rate while the population is below the hard cap.
The JS loop condition particles.length < maxParticles is carried by the fuel
argument, which the caller seeds with maxParticles - particles.length so that
fuel is positive exactly while the population is below the cap. -/
noncomputable def spawnLoop (canvasWidth canvasHeight : ℝ) (palette : String)
    (breathIntensity adjustedSpawnRate : ℝ) :
    ℕ → ℝ → List Particle → Rng → ℝ × List Particle × Rng
  | 0, timer, ps, g => (timer, ps, g)
  | fuel + 1, timer, ps, g =>
    if timer ≥ adjustedSpawnRate then
      let sp := spawnParticle canvasWidth canvasHeight palette breathIntensity g
      spawnLoop canvasWidth canvasHeight palette breathIntensity adjustedSpawnRate
        fuel (timer - adjustedSpawnRate) (ps ++ [sp.1]) sp.2
    else (timer, ps, g)

/-- Source NebulaVisual.update: accumulate the spawn timer and spawn at the
intensity-boosted rate up to the hard cap; step every particle (newly spawned
ones included) and keep only those with positive remaining life; grow the
target population with completed breath cycles; advance the background star
twinkle phases. -/
noncomputable def nebulaUpdate (nv : NebulaVisual) (breathState : BreathState)
    (deltaTime : ℝ) (g : Rng) : NebulaVisual × Rng :=
  let intensity := breathState.intensity
  let spawnTimer := nv.spawnTimer + deltaTime
  let spawnMultiplier := 1 + intensity * 2
  let adjustedSpawnRate := nv.spawnRate / spawnMultiplier
  let loopRes := spawnLoop nv.canvasWidth nv.canvasHeight nv.palette intensity
    adjustedSpawnRate (nv.maxParticles - nv.particles.length) spawnTimer nv.particles g
  let stepped := loopRes.2.1.map fun p =>
    p.update deltaTime intensity nv.canvasWidth nv.canvasHeight
  let survivors := stepped.filter fun p => decide (p.life > 0)
  let target :=
    if 0 < breathState.totalCycles then
      min (800 + breathState.totalCycles * 50) nv.maxParticles
    else nv.targetParticleCount
  let stars := nv.backgroundStars.map fun s =>
    { s with twinklePhase := s.twinklePhase + s.twinkleSpeed * deltaTime }
  ({ nv with
      spawnTimer := loopRes.1
      particles := survivors
      targetParticleCount := target
      backgroundStars := stars }, loopRes.2.2)

/-! ## Audio: BreathingSynth (synth source file) and AudioEngine
(src/audio/engine.js)

Each Web Audio AudioParam is modelled by the value most recently scheduled
for it (setValueAtTime / ramp / setTargetAtTime all re-aim the parameter, so
the embedded field holds the current target).  Oscillator start/stop is
tracked by a count of generator sets that have been started and not yet
stopped; _init creates fresh (unstarted) nodes and resets their parameter
values.  The stop method's delayed oscillator shutdown and re-init is
modelled synchronously as the state reached after the scheduled timeout has
run. -/

/-- The BreathingSynth audio-graph state. -/
structure BreathingSynth where
  masterGainTarget : ℝ
  filterFreqTarget : ℝ
  filterQ : ℝ
  droneFreqTarget : ℝ
  droneGainTarget : ℝ
  breathFreqTarget : ℝ
  breathGainTarget : ℝ
  shimmerFreqTarget : ℝ
  shimmerGainTarget : ℝ
  currentBreathFreq : ℝ
  targetBreathFreq : ℝ
  isPlaying : Bool
  activeGeneratorSets : ℕ

/-- Source _init: set every node parameter to its initial value (master 0.3,
low-pass filter at 2000 Hz with Q 1, drone 60 Hz at gain 0.15, breath tone
200 Hz at gain 0, shimmer 1200 Hz at gain 0).  The freshly created
oscillators are not started, so the active generator count is unchanged. -/
def synthInitNodes (s : BreathingSynth) : BreathingSynth :=
  { s with
      masterGainTarget := 0.3
      filterFreqTarget := 2000
      filterQ := 1
      droneFreqTarget := 60
      droneGainTarget := 0.15
      breathFreqTarget := 200
      breathGainTarget := 0
      shimmerFreqTarget := 1200
      shimmerGainTarget := 0 }

/-- The BreathingSynth constructor: not playing, breath frequency state at
200 Hz, followed by _init on the fresh node graph. -/
def initialSynth : BreathingSynth :=
  synthInitNodes
    { masterGainTarget := 0
      filterFreqTarget := 0
      filterQ := 0
      droneFreqTarget := 0
      droneGainTarget := 0
      breathFreqTarget := 0
      breathGainTarget := 0
      shimmerFreqTarget := 0
      shimmerGainTarget := 0
      currentBreathFreq := 200
      targetBreathFreq := 200
      isPlaying := false
      activeGeneratorSets := 0 }

/-- Source BreathingSynth.start: a no-op while already playing; otherwise
start the three oscillators of the current node set and ramp the master gain
from 0 to 0.3. -/
def synthStart (s : BreathingSynth) : BreathingSynth :=
  if s.isPlaying then s
  else { s with
      activeGeneratorSets := s.activeGeneratorSets + 1
      masterGainTarget := 0.3
      isPlaying := true }

/-- Source BreathingSynth.stop: a no-op while already stopped; otherwise
ramp the master gain to 0, and (after the scheduled 1.1 s timeout) stop the
oscillators, clear isPlaying and reinitialize the graph for the next start. -/
def synthStop (s : BreathingSynth) : BreathingSynth :=
  if s.isPlaying = false then s
  else synthInitNodes
    { s with
        activeGeneratorSets := s.activeGeneratorSets - 1
        isPlaying := false }

/-- Source BreathingSynth.update: a no-op while stopped; otherwise re-target
the breath tone frequency (lerp 200..800 by intensity, smoothed by 0.1
toward the target), the breath gain (intensity * 0.25 capped at 0.25), the
filter cutoff (lerp 800..4000 by intensity), the shimmer gain (0.08 during
holds, decaying to 0 otherwise) and the shimmer frequency wobble derived
from the audio clock (passed in as the clock value read from
ctx.currentTime). -/
noncomputable def synthUpdate (s : BreathingSynth) (breathState : BreathState)
    (now : ℝ) : BreathingSynth :=
  if s.isPlaying = false then s
  else
    let intensity := breathState.intensity
    let targetBreathFreq := lerp 200 800 intensity
    let currentBreathFreq := lerp s.currentBreathFreq targetBreathFreq 0.1
    let breathVolume := clamp (intensity * 0.25) 0 0.25
    let filterFreq := lerp 800 4000 intensity
    let shimmerTarget : ℝ :=
      if breathState.phase = BreathPhase.hold_in ∨ breathState.phase = BreathPhase.hold_out
      then 0.08 else 0
    let shimmerFreq := lerp 1000 1500 (Real.sin (now * 2) * 0.5 + 0.5)
    { s with
        targetBreathFreq := targetBreathFreq
        currentBreathFreq := currentBreathFreq
        breathFreqTarget := currentBreathFreq
        breathGainTarget := breathVolume
        filterFreqTarget := filterFreq
        shimmerGainTarget := shimmerTarget
        shimmerFreqTarget := shimmerFreq }

/-- Source BreathingSynth.setVolume: re-target the master gain to the
clamped volume. -/
noncomputable def synthSetVolume (s : BreathingSynth) (volume : ℝ) : BreathingSynth :=
  { s with masterGainTarget := clamp volume 0 1 }

/-- Source BreathingSynth.mute: setVolume(0). -/
noncomputable def synthMute (s : BreathingSynth) : BreathingSynth :=
  synthSetVolume s 0

/-- Source BreathingSynth.unmute: setVolume(0.3). -/
noncomputable def synthUnmute (s : BreathingSynth) : BreathingSynth :=
  synthSetVolume s 0.3

/-- The AudioEngine state (src/audio/engine.js); the context and synth are
created by init, which the other methods guard on. -/
structure AudioEngine where
  synth : BreathingSynth
  isPlaying : Bool
  isMuted : Bool

/-- Source AudioEngine.start (after init and context resume): start the
synth and mark the engine playing unless it already is. -/
def engineStart (e : AudioEngine) : AudioEngine :=
  if e.isPlaying then e
  else { e with synth := synthStart e.synth, isPlaying := true }

/-- Source AudioEngine.stop: stop the synth and clear the flag only while
playing. -/
def engineStop (e : AudioEngine) : AudioEngine :=
  if e.isPlaying then { e with synth := synthStop e.synth, isPlaying := false }
  else e

/-- Source AudioEngine.update: forward the breath state to the synth only
while playing and not muted. -/
noncomputable def engineUpdate (e : AudioEngine) (breathState : BreathState)
    (now : ℝ) : AudioEngine :=
  if e.isPlaying ∧ e.isMuted = false then
    { e with synth := synthUpdate e.synth breathState now }
  else e

/-- Source AudioEngine.toggleMute: flip the flag and mute or unmute the
synth accordingly. -/
noncomputable def engineToggleMute (e : AudioEngine) : AudioEngine :=
  if e.isMuted then { e with isMuted := false, synth := synthUnmute e.synth }
  else { e with isMuted := true, synth := synthMute e.synth }

/-- A fixed random stream (all draws zero) for concrete instantiations. -/
noncomputable def rngZero : Rng :=
  { seq := fun _ => 0, idx := 0 }

/-- A concrete breath-state snapshot (fresh active session at intensity one
half) fed to the consumers in concrete instantiations. -/
noncomputable def bsDemo : BreathState :=
  { phase := BreathPhase.exhale
    intensity := 0.5
    duration := 0
    totalCycles := 0
    isActive := true }

/-- A concrete 100 by 100 nebula state with no particles and no stars, used
for concrete instantiations. -/
noncomputable def nebDemo : NebulaVisual :=
  { canvasWidth := 100
    canvasHeight := 100
    particles := []
    targetParticleCount := 800
    maxParticles := 1500
    palette := "deepSpace"
    spawnTimer := 0
    spawnRate := 0.05
    backgroundStars := [] }

/-- A concrete particle at rest in the middle of the canvas, used for
concrete instantiations and counterexamples. -/
noncomputable def particleDemo : Particle :=
  { position := ⟨10, 10⟩
    velocity := ⟨0, 0⟩
    acceleration := ⟨0, 0⟩
    baseSize := 1
    size := 1
    maxSize := 3
    life := 1
    maxLife := 5
    age := 0
    palette := "deepSpace"
    colorPosition := 0.5
    twinklePhase := 0
    twinkleSpeed := 1
    opacity := 0.5 }

/-! ## Theorems: palette sampling -/

/-- Every palette name resolves to one of the four defined stop lists
(unknown names fall back to deepSpace). -/
theorem paletteStops_cases (name : String) :
    paletteStops name = ["#0a0e1a", "#1a1f3a", "#2d1b69", "#5a189a", "#9d4edd"] ∨
    paletteStops name = ["#1a0e00", "#4a1c00", "#ff6b35", "#ffa500", "#ffd700"] ∨
    paletteStops name = ["#001a1a", "#003d3d", "#00ffc8", "#00ff88", "#88ffaa"] ∨
    paletteStops name = ["#0a0a0f", "#1a1a2e", "#c0c0d0", "#e0e0f0", "#ffffff"] := by
  unfold paletteStops ColorPalettes
  split_ifs <;> simp

/-- Every stop list in use has five entries. -/
theorem paletteStops_length (name : String) : (paletteStops name).length = 5 := by
  rcases paletteStops_cases name with h | h | h | h <;> rw [h] <;> rfl

/-- Interpolating at parameter 0 returns the first color whenever both
colors parse and the first one round-trips through rgbToHex. -/
theorem lerpColor_zero (c1 c2 : String) (r g b : ℕ)
    (h1 : hexToRgb c1 = some (r, g, b)) (h2 : (hexToRgb c2).isSome = true)
    (h3 : rgbToHex r g b = c1) : lerpColor c1 c2 0 = c1 := by
  obtain ⟨p2, hp2⟩ := Option.isSome_iff_exists.mp h2
  obtain ⟨r2, g2, b2⟩ := p2
  unfold lerpColor
  rw [h1, hp2]
  simp [lerp, round_natCast, Int.toNat_natCast, h3]

/-- Interpolating at parameter 0 returns the first color whenever both
colors parse and the first one round-trips through rgbToHex (stated against
the palette stop lists). -/
theorem getColor_zero_aux (name : String) (r g b : ℕ)
    (h1 : hexToRgb ((paletteStops name).getD 0 "") = some (r, g, b))
    (h2 : (hexToRgb ((paletteStops name).getD 1 "")).isSome = true)
    (h3 : rgbToHex r g b = (paletteStops name).getD 0 "") :
    getColorFromPalette name 0 = (paletteStops name).getD 0 "" := by
  simp only [List.getD_eq_getElem?_getD] at h1 h2 h3
  simp only [getColorFromPalette, paletteStops_length]
  norm_num
  exact lerpColor_zero _ _ r g b h1 h2 h3

/-- Sampling at position 1 lands in the at-or-past-the-top branch and
returns the fifth (last) stop. -/
theorem getColor_one_aux (name : String) :
    getColorFromPalette name 1 = (paletteStops name).getD 4 "" := by
  simp only [getColorFromPalette, paletteStops_length]
  norm_num

/-- For t strictly between the positions of stops k and k+1, sampling
reduces to lerpColor on those two adjacent stops at the local parameter. -/
theorem getColor_interior (name : String) (k : ℕ) (t : ℚ)
    (hk : k + 2 ≤ (paletteStops name).length)
    (hlo : (k : ℚ) / (((paletteStops name).length : ℚ) - 1) < t)
    (hhi : t < ((k : ℚ) + 1) / (((paletteStops name).length : ℚ) - 1)) :
    getColorFromPalette name t =
      lerpColor ((paletteStops name).getD k "") ((paletteStops name).getD (k + 1) "")
        (t * (((paletteStops name).length : ℚ) - 1) - k) := by
  rw [paletteStops_length] at hk hlo hhi ⊢
  have h4 : ((5 : ℕ) : ℚ) - 1 = 4 := by norm_num
  rw [h4] at hlo hhi ⊢
  have hfl : ⌊t * 4⌋ = (k : ℤ) := by
    rw [Int.floor_eq_iff]
    constructor
    · push_cast
      have := (div_lt_iff₀ (by norm_num : (0:ℚ) < 4)).mp hlo
      linarith
    · push_cast
      have := (lt_div_iff₀ (by norm_num : (0:ℚ) < 4)).mp hhi
      linarith
  simp only [getColorFromPalette, paletteStops_length, h4, List.getD_eq_getElem?_getD]
  rw [hfl]
  have hcond : ¬ ((k : ℤ) ≥ (((5:ℕ) : ℤ)) - 1) := by
    push_cast
    omega
  rw [if_neg hcond]
  simp [Int.toNat_natCast]

/-- Claim C9: palette sampling at position 0 returns the palette's first
stop color, sampling at position 1 returns its last stop color, and for t
strictly between two adjacent stops the result is the linear RGB blend
(per-channel linear interpolation, as lerpColor computes it) of those two
stops at the local parameter. -/
theorem claim_C9_palette_sampling (name : String) (k : ℕ) (t : ℚ)
    (hk : k + 2 ≤ (paletteStops name).length)
    (hlo : (k : ℚ) / (((paletteStops name).length : ℚ) - 1) < t)
    (hhi : t < ((k : ℚ) + 1) / (((paletteStops name).length : ℚ) - 1)) :
    getColorFromPalette name 0 = (paletteStops name).getD 0 "" ∧
    getColorFromPalette name 1 = (paletteStops name).getD ((paletteStops name).length - 1) "" ∧
    getColorFromPalette name t =
      lerpColor ((paletteStops name).getD k "") ((paletteStops name).getD (k + 1) "")
        (t * (((paletteStops name).length : ℚ) - 1) - k) := by
  refine ⟨?_, ?_, getColor_interior name k t hk hlo hhi⟩
  · rcases paletteStops_cases name with h | h | h | h
    · exact getColor_zero_aux name 10 14 26 (by rw [h]; decide) (by rw [h]; decide)
        (by rw [h]; decide)
    · exact getColor_zero_aux name 26 14 0 (by rw [h]; decide) (by rw [h]; decide)
        (by rw [h]; decide)
    · exact getColor_zero_aux name 0 26 26 (by rw [h]; decide) (by rw [h]; decide)
        (by rw [h]; decide)
    · exact getColor_zero_aux name 10 10 15 (by rw [h]; decide) (by rw [h]; decide)
        (by rw [h]; decide)
  · rw [paletteStops_length]
    exact getColor_one_aux name

/-- Concrete instantiation: deepSpace at t = 1/8, strictly between the
first two stops. -/
theorem claim_C9_palette_sampling_witness :
    (0 + 2 ≤ (paletteStops "deepSpace").length) ∧
    ((0 : ℚ) / (((paletteStops "deepSpace").length : ℚ) - 1) < 1 / 8) ∧
    ((1 : ℚ) / 8 < ((0 : ℚ) + 1) / (((paletteStops "deepSpace").length : ℚ) - 1)) ∧
    (getColorFromPalette "deepSpace" 0 = (paletteStops "deepSpace").getD 0 "" ∧
      getColorFromPalette "deepSpace" 1 =
        (paletteStops "deepSpace").getD ((paletteStops "deepSpace").length - 1) "" ∧
      getColorFromPalette "deepSpace" (1 / 8) =
        lerpColor ((paletteStops "deepSpace").getD 0 "")
          ((paletteStops "deepSpace").getD (0 + 1) "")
          ((1 : ℚ) / 8 * (((paletteStops "deepSpace").length : ℚ) - 1) - (0 : ℕ))) := by
  have hk : 0 + 2 ≤ (paletteStops "deepSpace").length := by decide
  have hlo : ((0 : ℕ) : ℚ) / (((paletteStops "deepSpace").length : ℚ) - 1) < 1 / 8 := by
    rw [paletteStops_length]
    norm_num
  have hhi : (1 : ℚ) / 8 < (((0 : ℕ) : ℚ) + 1) / (((paletteStops "deepSpace").length : ℚ) - 1) := by
    rw [paletteStops_length]
    norm_num
  exact ⟨hk, hlo, hhi, claim_C9_palette_sampling "deepSpace" 0 (1 / 8) hk hlo hhi⟩

/-- When the object has no member at all under a name, sampling uses the
deepSpace fallback stop list. -/
theorem getColor_fallback_plain (name : String)
    (h : ColorPalettes name = none) (t : ℚ) :
    getColorFromPalette name t = getColorFromPalette "deepSpace" t := by
  unfold getColorFromPalette paletteStops
  rw [h]
  simp [ColorPalettes]

/-- Claim C10 (amended): for every palette name that is neither a defined
palette nor a property name inherited from Object.prototype, the lookup
yields undefined and getColorFromPalette silently falls back to the
deepSpace palette; but for an inherited property name (toString,
constructor, ...) the truthy inherited member suppresses the fallback and
the call yields undefined rather than any palette color (see the
counterexample). -/
theorem claim_C10_unknown_palette_fallback (name : String) (t : ℚ) :
    (ColorPalettes name = none → name ∉ objectPrototypeKeys →
      getColorFromPaletteJs name t = getColorFromPaletteJs "deepSpace" t ∧
      getColorFromPaletteJs name t = some (getColorFromPalette "deepSpace" t)) ∧
    (ColorPalettes name = none → name ∈ objectPrototypeKeys →
      getColorFromPaletteJs name t = none) := by
  constructor
  · intro h1 h2
    have hlook : colorPalettesLookup name = none := by
      unfold colorPalettesLookup
      rw [h1]
      simp [h2]
    have hself : getColorFromPaletteJs name t = some (getColorFromPalette name t) := by
      unfold getColorFromPaletteJs
      rw [hlook]
    have hdeep : getColorFromPaletteJs "deepSpace" t =
        some (getColorFromPalette "deepSpace" t) := by
      unfold getColorFromPaletteJs
      have : colorPalettesLookup "deepSpace" =
          some (JsVal.arr ["#0a0e1a", "#1a1f3a", "#2d1b69", "#5a189a", "#9d4edd"]) := by
        decide
      rw [this]
    rw [hself, hdeep, getColor_fallback_plain name h1 t]
    exact ⟨rfl, rfl⟩
  · intro h1 h2
    have hlook : colorPalettesLookup name = some JsVal.protoMember := by
      unfold colorPalettesLookup
      rw [h1, if_pos h2]
    unfold getColorFromPaletteJs
    rw [hlook]

/-- Counterexample input for the claim as stated: the name toString is not
in the known palette set, yet the inherited Object.prototype member makes
the call yield undefined instead of the deepSpace sample (which is a real
color). -/
theorem claim_C10_unknown_palette_fallback_counterexample :
    ColorPalettes "toString" = none ∧
    getColorFromPaletteJs "toString" (1 / 2) = none ∧
    (getColorFromPaletteJs "deepSpace" (1 / 2)).isSome = true := by
  refine ⟨by decide, by decide, by decide⟩

/-- Concrete instantiation: the genuinely absent name cosmicDust is sampled
exactly like deepSpace, while the inherited name toString yields undefined. -/
theorem claim_C10_unknown_palette_fallback_witness :
    ColorPalettes "cosmicDust" = none ∧ "cosmicDust" ∉ objectPrototypeKeys ∧
    (getColorFromPaletteJs "cosmicDust" (1 / 2) = getColorFromPaletteJs "deepSpace" (1 / 2) ∧
      getColorFromPaletteJs "cosmicDust" (1 / 2) =
        some (getColorFromPalette "deepSpace" (1 / 2))) ∧
    ColorPalettes "toString" = none ∧ "toString" ∈ objectPrototypeKeys ∧
    getColorFromPaletteJs "toString" (1 / 2) = none := by
  have h1 : ColorPalettes "cosmicDust" = none := by decide
  have h2 : "cosmicDust" ∉ objectPrototypeKeys := by decide
  have h3 : ColorPalettes "toString" = none := by decide
  have h4 : "toString" ∈ objectPrototypeKeys := by decide
  exact ⟨h1, h2, (claim_C10_unknown_palette_fallback "cosmicDust" (1 / 2)).1 h1 h2,
    h3, h4, (claim_C10_unknown_palette_fallback "toString" (1 / 2)).2 h3 h4⟩

/-! ## Theorems: breathing detector -/

/-- clamp really confines its value to the interval. -/
theorem clamp_bounds (v lo hi : ℝ) (h : lo ≤ hi) :
    lo ≤ clamp v lo hi ∧ clamp v lo hi ≤ hi :=
  ⟨le_min (le_max_right v lo) h, min_le_right _ _⟩

/-- The mode dispatch step never touches the smoothed intensity, the phase
duration, the cycle count, the mode or the smoothing factor. -/
theorem applyMode_preserves (d : BreathingDetector) (dt : ℝ) :
    ((applyMode d dt).1).state.intensity = d.state.intensity ∧
    ((applyMode d dt).1).state.duration = d.state.duration ∧
    ((applyMode d dt).1).state.totalCycles = d.state.totalCycles ∧
    ((applyMode d dt).1).mode = d.mode ∧
    ((applyMode d dt).1).smoothingFactor = d.smoothingFactor := by
  cases hm : d.mode
  · simp [applyMode, hm]
  · cases hd : d.micData <;>
      simp only [applyMode, hm, updateFromMicrophone, hd] <;> [skip; split_ifs] <;> simp [hm]
  · cases hp : d.guidedPattern <;>
      simp only [applyMode, hm, updateFromGuided, hp] <;> [skip; split_ifs] <;> simp [hm]

/-- In manual and microphone modes the dispatch step also leaves the phase
untouched and emits nothing. -/
theorem applyMode_nonguided (d : BreathingDetector) (dt : ℝ)
    (h : d.mode = BreathMode.manual ∨ d.mode = BreathMode.mic) :
    ((applyMode d dt).1).state.phase = d.state.phase ∧ (applyMode d dt).2 = [] := by
  rcases h with hm | hm
  · simp [applyMode, hm]
  · cases hd : d.micData <;>
      simp only [applyMode, hm, updateFromMicrophone, hd] <;> [skip; split_ifs] <;> simp

/-- Field bookkeeping of the smoothing step. -/
theorem smoothStep_fields (d : BreathingDetector) (dt : ℝ) :
    (smoothStep d dt).state.intensity =
      clamp (d.state.intensity + (d.targetIntensity - d.state.intensity) * d.smoothingFactor) 0 1 ∧
    (smoothStep d dt).state.duration = d.state.duration + dt ∧
    (smoothStep d dt).state.totalCycles = d.state.totalCycles ∧
    (smoothStep d dt).state.phase = d.state.phase ∧
    (smoothStep d dt).mode = d.mode ∧
    (smoothStep d dt).guidedTimer = d.guidedTimer ∧
    (smoothStep d dt).targetIntensity = d.targetIntensity := by
  simp [smoothStep]

/-- Phase detection never changes the smoothed intensity. -/
theorem detectStep_intensity (d : BreathingDetector) :
    ((detectStep d).1).state.intensity = d.state.intensity := by
  simp only [detectStep]
  split_ifs <;> simp

/-- Phase detection always stores the threshold classification as the new
phase. -/
theorem detectStep_phase (d : BreathingDetector) :
    ((detectStep d).1).state.phase = classifyPhase d.state.intensity := by
  simp only [detectStep]
  split_ifs with h1 h2 <;> simp

/-- Phase detection either leaves the cycle count alone (without emitting
cycleComplete, and not on an exhale-to-inhale change) or increments it by
one on an exhale-to-inhale change, emitting cycleComplete. -/
theorem detectStep_spec (d : BreathingDetector) :
    (((detectStep d).1).state.totalCycles = d.state.totalCycles ∧
      DetEvent.cycleComplete ∉ (detectStep d).2 ∧
      ¬(d.state.phase = BreathPhase.exhale ∧
        ((detectStep d).1).state.phase = BreathPhase.inhale)) ∨
    (((detectStep d).1).state.totalCycles = d.state.totalCycles + 1 ∧
      DetEvent.cycleComplete ∈ (detectStep d).2 ∧
      d.state.phase = BreathPhase.exhale ∧
      ((detectStep d).1).state.phase = BreathPhase.inhale) := by
  simp only [detectStep]
  split_ifs with h1 h2
  · left
    refine ⟨by simp, by simp, ?_⟩
    rintro ⟨he, hi⟩
    simp at hi
    rw [h1, he] at hi
    exact absurd hi (by simp)
  · right
    exact ⟨by simp, by simp, h2.1, by simp [h2.2]⟩
  · left
    refine ⟨by simp, by simp, ?_⟩
    rintro ⟨he, hi⟩
    simp at hi
    exact h2 ⟨he, hi⟩

/-- On any phase change the detection step zeroes the duration and emits a
phaseChange event carrying the new phase. -/
theorem detectStep_change (d : BreathingDetector)
    (h : ((detectStep d).1).state.phase ≠ d.state.phase) :
    ((detectStep d).1).state.duration = 0 ∧
    DetEvent.phaseChange ((detectStep d).1).state.phase ∈ (detectStep d).2 := by
  revert h
  simp only [detectStep]
  split_ifs with h1 h2
  · intro h
    simp at h
    rw [h1] at h
    exact absurd rfl h
  · intro h
    exact ⟨by simp, by simp⟩
  · intro h
    exact ⟨by simp, by simp⟩

/-- The guided helper emits at most the single cycleComplete of a wrap. -/
theorem updateFromGuided_events (d : BreathingDetector) (dt : ℝ) :
    (updateFromGuided d dt).2 = [] ∨ (updateFromGuided d dt).2 = [DetEvent.cycleComplete] := by
  cases hp : d.guidedPattern <;> simp only [updateFromGuided, hp]
  · simp
  · split_ifs <;> simp

/-- While the detector is active, update is the mode dispatch, the smoothing
step, and (in non-guided modes) the detection step. -/
theorem detUpdate_active (d : BreathingDetector) (dt : ℝ) (ha : d.state.isActive = true) :
    detUpdate d dt =
      if (smoothStep (applyMode d dt).1 dt).mode = BreathMode.guided
      then (smoothStep (applyMode d dt).1 dt, (applyMode d dt).2)
      else ((detectStep (smoothStep (applyMode d dt).1 dt)).1,
            (applyMode d dt).2 ++ (detectStep (smoothStep (applyMode d dt).1 dt)).2) := by
  simp only [detUpdate, ha]
  cases hmode : (smoothStep (applyMode d dt).1 dt).mode <;> simp [hmode]

/-- Projections of an active update when the mode is guided. -/
theorem detUpdate_proj_guided (d : BreathingDetector) (dt : ℝ)
    (ha : d.state.isActive = true)
    (hmode : (smoothStep (applyMode d dt).1 dt).mode = BreathMode.guided) :
    (detUpdate d dt).1 = smoothStep (applyMode d dt).1 dt ∧
    (detUpdate d dt).2 = (applyMode d dt).2 := by
  rw [detUpdate_active d dt ha, if_pos hmode]
  exact ⟨rfl, rfl⟩

/-- Projections of an active update when the mode is not guided. -/
theorem detUpdate_proj_nonguided (d : BreathingDetector) (dt : ℝ)
    (ha : d.state.isActive = true)
    (hmode : ¬ (smoothStep (applyMode d dt).1 dt).mode = BreathMode.guided) :
    (detUpdate d dt).1 = (detectStep (smoothStep (applyMode d dt).1 dt)).1 ∧
    (detUpdate d dt).2 =
      (applyMode d dt).2 ++ (detectStep (smoothStep (applyMode d dt).1 dt)).2 := by
  rw [detUpdate_active d dt ha, if_neg hmode]
  exact ⟨rfl, rfl⟩

/-- Claim C2: for every delta time and every mode, updating an active
detector clamps the smoothed intensity into the unit interval; updating an
inactive detector returns it unchanged (so intensity stays in the unit
interval it was in). -/
theorem claim_C2_intensity_unit_interval (d : BreathingDetector) (dt : ℝ)
    (hdt : 0 ≤ dt) (h0 : 0 ≤ d.state.intensity) (h1 : d.state.intensity ≤ 1) :
    (0 ≤ ((detUpdate d dt).1).state.intensity ∧
      ((detUpdate d dt).1).state.intensity ≤ 1) ∧
    (d.state.isActive = false → (detUpdate d dt).1 = d) := by
  cases ha : d.state.isActive
  · constructor
    · constructor <;> simp [detUpdate, ha, h0, h1]
    · intro
      simp [detUpdate, ha]
  · refine ⟨?_, fun hfalse => absurd hfalse (by simp)⟩
    by_cases hmode : (smoothStep (applyMode d dt).1 dt).mode = BreathMode.guided
    · rw [(detUpdate_proj_guided d dt ha hmode).1, (smoothStep_fields _ _).1]
      exact clamp_bounds _ 0 1 (by norm_num)
    · rw [(detUpdate_proj_nonguided d dt ha hmode).1, detectStep_intensity,
        (smoothStep_fields _ _).1]
      exact clamp_bounds _ 0 1 (by norm_num)

/-- Concrete instantiation of the intensity invariant on the constructor
state (inactive, intensity one half) at delta time 1. -/
theorem claim_C2_intensity_unit_interval_witness :
    ((0 : ℝ) ≤ 1 ∧ 0 ≤ initialDetector.state.intensity ∧
      initialDetector.state.intensity ≤ 1) ∧
    ((0 ≤ ((detUpdate initialDetector 1).1).state.intensity ∧
      ((detUpdate initialDetector 1).1).state.intensity ≤ 1) ∧
    (initialDetector.state.isActive = false → (detUpdate initialDetector 1).1 = initialDetector)) := by
  have hdt : (0 : ℝ) ≤ 1 := by norm_num
  have h0 : 0 ≤ initialDetector.state.intensity := by
    simp [initialDetector]
    norm_num
  have h1 : initialDetector.state.intensity ≤ 1 := by
    simp [initialDetector]
    norm_num
  exact ⟨⟨hdt, h0, h1⟩, claim_C2_intensity_unit_interval initialDetector 1 hdt h0 h1⟩

/-- Claim C1 (amended): while active, the cycle count never decreases and
moves by at most one per update; every increment is accompanied by a
cycleComplete event; in non-guided modes it increments exactly on an
exhale-to-inhale phase transition; but in guided mode the cycle count is
never incremented (a guided full-cycle wrap emits cycleComplete without
counting the cycle). -/
theorem claim_C1_total_cycles (d : BreathingDetector) (dt : ℝ)
    (ha : d.state.isActive = true) :
    d.state.totalCycles ≤ ((detUpdate d dt).1).state.totalCycles ∧
    ((detUpdate d dt).1).state.totalCycles ≤ d.state.totalCycles + 1 ∧
    (((detUpdate d dt).1).state.totalCycles = d.state.totalCycles + 1 →
      DetEvent.cycleComplete ∈ (detUpdate d dt).2) ∧
    (d.mode ≠ BreathMode.guided →
      (((detUpdate d dt).1).state.totalCycles = d.state.totalCycles + 1 ↔
        d.state.phase = BreathPhase.exhale ∧
        ((detUpdate d dt).1).state.phase = BreathPhase.inhale)) ∧
    (d.mode = BreathMode.guided →
      ((detUpdate d dt).1).state.totalCycles = d.state.totalCycles) := by
  have hap := applyMode_preserves d dt
  have hsm := smoothStep_fields (applyMode d dt).1 dt
  have hmode_eq : (smoothStep (applyMode d dt).1 dt).mode = d.mode := by
    rw [hsm.2.2.2.2.1, hap.2.2.2.1]
  have hcyc_eq : (smoothStep (applyMode d dt).1 dt).state.totalCycles = d.state.totalCycles := by
    rw [hsm.2.2.1, hap.2.2.1]
  by_cases hmode : (smoothStep (applyMode d dt).1 dt).mode = BreathMode.guided
  · have hproj := detUpdate_proj_guided d dt ha hmode
    have hdm : d.mode = BreathMode.guided := by rw [← hmode_eq]; exact hmode
    rw [hproj.1, hcyc_eq]
    exact ⟨le_refl _, Nat.le_succ _, fun h => absurd h (by omega),
      fun hng => absurd hdm hng, fun _ => rfl⟩
  · have hproj := detUpdate_proj_nonguided d dt ha hmode
    have hdm : d.mode ≠ BreathMode.guided := by rw [← hmode_eq]; exact hmode
    have hforms : d.mode = BreathMode.manual ∨ d.mode = BreathMode.mic := by
      cases hm : d.mode
      · exact Or.inl rfl
      · exact Or.inr rfl
      · exact absurd hm hdm
    have hph : (smoothStep (applyMode d dt).1 dt).state.phase = d.state.phase := by
      rw [hsm.2.2.2.1, (applyMode_nonguided d dt hforms).1]
    rw [hproj.1, hproj.2]
    rcases detectStep_spec (smoothStep (applyMode d dt).1 dt) with
      ⟨hc, _, hnotx⟩ | ⟨hc, hin, hex, hinh⟩
    · rw [hc, hcyc_eq]
      refine ⟨le_refl _, Nat.le_succ _, fun h => absurd h (by omega), fun _ => ?_,
        fun hg => absurd hg hdm⟩
      constructor
      · intro h
        exact absurd h (by omega)
      · rintro ⟨he, hi⟩
        exact absurd ⟨by rw [hph]; exact he, hi⟩ hnotx
    · rw [hc, hcyc_eq]
      refine ⟨Nat.le_succ _, le_refl _, fun _ => List.mem_append_right _ hin, fun _ => ?_,
        fun hg => absurd hg hdm⟩
      constructor
      · intro _
        exact ⟨by rw [← hph]; exact hex, hinh⟩
      · intro _
        rfl

/-- Counterexample input for the guided part of the cycle-count claim: a
full-cycle wrap of the 4-7-8-0 pattern (19 seconds elapsed) emits
cycleComplete without incrementing totalCycles. -/
theorem claim_C1_total_cycles_counterexample :
    DetEvent.cycleComplete ∈ (detUpdate demo478 20).2 ∧
    ((detUpdate demo478 20).1).state.totalCycles = demo478.state.totalCycles := by
  norm_num [detUpdate, applyMode, updateFromGuided, smoothStep, detectStep, demo478,
    detStart, setGuidedPattern, initialDetector, clamp, min_def, max_def]

/-- Concrete instantiation of the cycle-count bookkeeping on the active
guided demo state. -/
theorem claim_C1_total_cycles_witness :
    demo478.state.isActive = true ∧
    (demo478.state.totalCycles ≤ ((detUpdate demo478 1).1).state.totalCycles ∧
    ((detUpdate demo478 1).1).state.totalCycles ≤ demo478.state.totalCycles + 1 ∧
    (((detUpdate demo478 1).1).state.totalCycles = demo478.state.totalCycles + 1 →
      DetEvent.cycleComplete ∈ (detUpdate demo478 1).2) ∧
    (demo478.mode ≠ BreathMode.guided →
      (((detUpdate demo478 1).1).state.totalCycles = demo478.state.totalCycles + 1 ↔
        demo478.state.phase = BreathPhase.exhale ∧
        ((detUpdate demo478 1).1).state.phase = BreathPhase.inhale)) ∧
    (demo478.mode = BreathMode.guided →
      ((detUpdate demo478 1).1).state.totalCycles = demo478.state.totalCycles)) :=
  ⟨rfl, claim_C1_total_cycles demo478 1 rfl⟩

/-- In guided mode with the 4-7-8-0 pattern, the helper places the phase
and the target intensity from the elapsed time: timer 2 is mid-inhale with
target one half, timer 5 is a hold with target one, a wrap resets the timer
to zero, and cycleComplete is emitted exactly once per wrapping call. -/
theorem updateFromGuided_p478 (d : BreathingDetector) (dt : ℝ)
    (hp : d.guidedPattern = some { inhale := 4, holdIn := 7, exhale := 8, holdOut := 0 }) :
    ((updateFromGuided d dt).1.guidedTimer = 2 →
      (updateFromGuided d dt).1.state.phase = BreathPhase.inhale ∧
      (updateFromGuided d dt).1.targetIntensity = 1 / 2) ∧
    ((updateFromGuided d dt).1.guidedTimer = 5 →
      (updateFromGuided d dt).1.state.phase = BreathPhase.hold_in ∧
      (updateFromGuided d dt).1.targetIntensity = 1) ∧
    (19 ≤ d.guidedTimer + dt → (updateFromGuided d dt).1.guidedTimer = 0) ∧
    (List.count DetEvent.cycleComplete (updateFromGuided d dt).2 =
      if 19 ≤ d.guidedTimer + dt then 1 else 0) := by
  simp only [updateFromGuided, hp]
  split_ifs with h1 h2 h3 h4 <;> simp_all <;>
    first
    | linarith
    | (intro h; linarith)
    | (constructor <;> intro h <;> linarith)
    | (constructor <;> intro h <;> [skip; linarith] <;>
        norm_num [h, easeInOutSine] <;>
        rw [show (Real.pi * (1 / 2)) = Real.pi / 2 by ring] <;>
        norm_num [Real.cos_pi_div_two])

/-- Claim C3 (amended): in an active guided 4-7-8-0 session, an update
landing on guided timer 2 is mid-inhale with the guided target intensity
strictly between 0 and 1; an update landing on timer 5 is a hold-in with
target intensity exactly 1 (the smoothed state intensity lags below 1, see
the counterexample); when the timer passes the 19-second total it wraps to
0 and cycleComplete fires exactly once for the wrapping update. -/
theorem claim_C3_guided_478 (d : BreathingDetector) (dt : ℝ)
    (ha : d.state.isActive = true) (hm : d.mode = BreathMode.guided)
    (hp : d.guidedPattern = some { inhale := 4, holdIn := 7, exhale := 8, holdOut := 0 }) :
    ((detUpdate d dt).1.guidedTimer = 2 →
      (detUpdate d dt).1.state.phase = BreathPhase.inhale ∧
      0 < (detUpdate d dt).1.targetIntensity ∧ (detUpdate d dt).1.targetIntensity < 1) ∧
    ((detUpdate d dt).1.guidedTimer = 5 →
      (detUpdate d dt).1.state.phase = BreathPhase.hold_in ∧
      (detUpdate d dt).1.targetIntensity = 1) ∧
    (19 ≤ d.guidedTimer + dt → (detUpdate d dt).1.guidedTimer = 0) ∧
    (List.count DetEvent.cycleComplete (detUpdate d dt).2 =
      if 19 ≤ d.guidedTimer + dt then 1 else 0) := by
  have happ : applyMode d dt = updateFromGuided d dt := by
    simp [applyMode, hm]
  have hmode : (smoothStep (applyMode d dt).1 dt).mode = BreathMode.guided := by
    rw [(smoothStep_fields _ _).2.2.2.2.1, (applyMode_preserves d dt).2.2.2.1, hm]
  have hproj := detUpdate_proj_guided d dt ha hmode
  have h478 := updateFromGuided_p478 d dt hp
  have hsm := smoothStep_fields (updateFromGuided d dt).1 dt
  rw [hproj.1, hproj.2, happ, hsm.2.2.2.2.2.1, hsm.2.2.2.1, hsm.2.2.2.2.2.2]
  refine ⟨fun h => ?_, fun h => h478.2.1 h, h478.2.2.1, h478.2.2.2⟩
  obtain ⟨hph, htg⟩ := h478.1 h
  exact ⟨hph, by rw [htg]; norm_num, by rw [htg]; norm_num⟩

/-- Counterexample input for the claim as stated: one guided update of 5
seconds from the fresh 4-7-8-0 session lands on guided timer 5 in the
hold-in phase, but the state's smoothed intensity is 0.575, not exactly 1. -/
theorem claim_C3_guided_478_counterexample :
    ((detUpdate demo478 5).1).guidedTimer = 5 ∧
    ((detUpdate demo478 5).1).state.phase = BreathPhase.hold_in ∧
    ((detUpdate demo478 5).1).state.intensity ≠ 1 := by
  norm_num [detUpdate, applyMode, updateFromGuided, smoothStep, detectStep, demo478,
    detStart, setGuidedPattern, initialDetector, clamp, min_def, max_def]

/-- Concrete instantiation of the guided 4-7-8-0 behaviour on the demo
session at delta time 2 (landing exactly on guided timer 2). -/
theorem claim_C3_guided_478_witness :
    demo478.state.isActive = true ∧ demo478.mode = BreathMode.guided ∧
    demo478.guidedPattern = some { inhale := 4, holdIn := 7, exhale := 8, holdOut := 0 } ∧
    (((detUpdate demo478 2).1.guidedTimer = 2 →
      (detUpdate demo478 2).1.state.phase = BreathPhase.inhale ∧
      0 < (detUpdate demo478 2).1.targetIntensity ∧
      (detUpdate demo478 2).1.targetIntensity < 1) ∧
    ((detUpdate demo478 2).1.guidedTimer = 5 →
      (detUpdate demo478 2).1.state.phase = BreathPhase.hold_in ∧
      (detUpdate demo478 2).1.targetIntensity = 1) ∧
    (19 ≤ demo478.guidedTimer + 2 → (detUpdate demo478 2).1.guidedTimer = 0) ∧
    (List.count DetEvent.cycleComplete (detUpdate demo478 2).2 =
      if 19 ≤ demo478.guidedTimer + 2 then 1 else 0)) :=
  ⟨rfl, rfl, rfl, claim_C3_guided_478 demo478 2 rfl rfl rfl⟩

/-- Claim C4 (amended): in non-guided modes, any phase change produced by
an active update resets the phase duration to 0 and emits phaseChange with
the new phase; in guided mode, however, update emits no phaseChange at all
and the duration keeps accumulating across the silently applied phase
changes. -/
theorem claim_C4_phase_change_events (d : BreathingDetector) (dt : ℝ)
    (ha : d.state.isActive = true) :
    (d.mode ≠ BreathMode.guided →
      ((detUpdate d dt).1.state.phase ≠ d.state.phase →
        (detUpdate d dt).1.state.duration = 0 ∧
        DetEvent.phaseChange ((detUpdate d dt).1.state.phase) ∈ (detUpdate d dt).2)) ∧
    (d.mode = BreathMode.guided →
      (∀ ph, DetEvent.phaseChange ph ∉ (detUpdate d dt).2) ∧
      (detUpdate d dt).1.state.duration = d.state.duration + dt) := by
  constructor
  · intro hng hch
    have hmode : ¬ (smoothStep (applyMode d dt).1 dt).mode = BreathMode.guided := by
      rw [(smoothStep_fields _ _).2.2.2.2.1, (applyMode_preserves d dt).2.2.2.1]
      exact hng
    have hproj := detUpdate_proj_nonguided d dt ha hmode
    have hforms : d.mode = BreathMode.manual ∨ d.mode = BreathMode.mic := by
      cases hm : d.mode
      · exact Or.inl rfl
      · exact Or.inr rfl
      · exact absurd hm hng
    have hYph : (smoothStep (applyMode d dt).1 dt).state.phase = d.state.phase := by
      rw [(smoothStep_fields _ _).2.2.2.1, (applyMode_nonguided d dt hforms).1]
    rw [hproj.1] at hch ⊢
    have hch2 : (detectStep (smoothStep (applyMode d dt).1 dt)).1.state.phase ≠
        (smoothStep (applyMode d dt).1 dt).state.phase := by
      rw [hYph]
      exact hch
    have hcd := detectStep_change _ hch2
    refine ⟨hcd.1, ?_⟩
    rw [hproj.2]
    exact List.mem_append_right _ hcd.2
  · intro hg
    have happ : applyMode d dt = updateFromGuided d dt := by
      simp [applyMode, hg]
    have hmode : (smoothStep (applyMode d dt).1 dt).mode = BreathMode.guided := by
      rw [(smoothStep_fields _ _).2.2.2.2.1, (applyMode_preserves d dt).2.2.2.1, hg]
    have hproj := detUpdate_proj_guided d dt ha hmode
    constructor
    · intro ph
      rw [hproj.2, happ]
      rcases updateFromGuided_events d dt with he | he <;> rw [he] <;> simp
    · rw [hproj.1, (smoothStep_fields _ _).2.1, (applyMode_preserves d dt).2.1]

/-- Counterexample input for the claim as stated: the first 5-second guided
update changes the phase from exhale to hold-in, yet no phaseChange event is
emitted and the duration is 5 rather than 0. -/
theorem claim_C4_phase_change_events_counterexample :
    ((detUpdate demo478 5).1).state.phase ≠ demo478.state.phase ∧
    ((detUpdate demo478 5).1).state.duration ≠ 0 ∧
    ∀ ph, DetEvent.phaseChange ph ∉ (detUpdate demo478 5).2 := by
  norm_num [detUpdate, applyMode, updateFromGuided, smoothStep, detectStep, demo478,
    detStart, setGuidedPattern, initialDetector, clamp, min_def, max_def]
  decide

/-- Concrete instantiation of the phase-change bookkeeping on the active
guided demo state. -/
theorem claim_C4_phase_change_events_witness :
    demo478.state.isActive = true ∧
    ((demo478.mode ≠ BreathMode.guided →
      ((detUpdate demo478 1).1.state.phase ≠ demo478.state.phase →
        (detUpdate demo478 1).1.state.duration = 0 ∧
        DetEvent.phaseChange ((detUpdate demo478 1).1.state.phase) ∈ (detUpdate demo478 1).2)) ∧
    (demo478.mode = BreathMode.guided →
      (∀ ph, DetEvent.phaseChange ph ∉ (detUpdate demo478 1).2) ∧
      (detUpdate demo478 1).1.state.duration = demo478.state.duration + 1)) :=
  ⟨rfl, claim_C4_phase_change_events demo478 1 rfl⟩

/-! ## Theorems: particle field -/

/-- After a particle step the wrapped position lies inside the canvas box,
whatever the motion did. -/
theorem particle_update_pos_mem (p : Particle) (dt bi w h : ℝ) (hw : 0 ≤ w) (hh : 0 ≤ h) :
    0 ≤ (p.update dt bi w h).position.x ∧ (p.update dt bi w h).position.x ≤ w ∧
    0 ≤ (p.update dt bi w h).position.y ∧ (p.update dt bi w h).position.y ≤ h := by
  simp only [Particle.update]
  split_ifs <;> refine ⟨?_, ?_, ?_, ?_⟩ <;> simp_all <;> linarith

/-- The spawn loop adds at most its fuel's worth of particles. -/
theorem spawnLoop_length (w h : ℝ) (pal : String) (bi rate : ℝ) :
    ∀ (fuel : ℕ) (timer : ℝ) (ps : List Particle) (g : Rng),
      (spawnLoop w h pal bi rate fuel timer ps g).2.1.length ≤ ps.length + fuel := by
  intro fuel
  induction fuel with
  | zero =>
    intro timer ps g
    simp [spawnLoop]
  | succ n ih =>
    intro timer ps g
    simp only [spawnLoop]
    split_ifs with hc
    · have h2 := ih (timer - rate)
        (ps ++ [(spawnParticle w h pal bi g).1]) (spawnParticle w h pal bi g).2
      have h3 : (ps ++ [(spawnParticle w h pal bi g).1]).length = ps.length + 1 := by
        rw [List.length_append, List.length_singleton]
      omega
    · simp

/-- Claim C5: after every nebula update, the live particle set contains no
particle with non-positive life, its size never exceeds the hard cap (which
the constructor fixes at 1500), and every live particle's wrapped position
lies within the canvas box. -/
theorem claim_C5_particle_invariants (nv : NebulaVisual) (bs : BreathState) (dt : ℝ) (g : Rng)
    (hlen : nv.particles.length ≤ nv.maxParticles)
    (hw : 0 ≤ nv.canvasWidth) (hh : 0 ≤ nv.canvasHeight) :
    (∀ p ∈ ((nebulaUpdate nv bs dt g).1).particles,
      0 < p.life ∧
      0 ≤ p.position.x ∧ p.position.x ≤ nv.canvasWidth ∧
      0 ≤ p.position.y ∧ p.position.y ≤ nv.canvasHeight) ∧
    ((nebulaUpdate nv bs dt g).1).particles.length ≤ nv.maxParticles ∧
    (∀ (w h : ℝ) (g2 : Rng), ((nebulaInit w h g2).1).maxParticles = 1500) := by
  refine ⟨?_, ?_, fun w h g2 => rfl⟩
  · intro p hp
    simp only [nebulaUpdate] at hp
    rw [List.mem_filter] at hp
    obtain ⟨hmem, hlife⟩ := hp
    rw [List.mem_map] at hmem
    obtain ⟨q, hq, rfl⟩ := hmem
    exact ⟨of_decide_eq_true hlife, particle_update_pos_mem q dt bs.intensity _ _ hw hh⟩
  · simp only [nebulaUpdate]
    have h1 := List.length_filter_le (fun p => decide (p.life > 0))
      ((spawnLoop nv.canvasWidth nv.canvasHeight nv.palette bs.intensity
        (nv.spawnRate / (1 + bs.intensity * 2)) (nv.maxParticles - nv.particles.length)
        (nv.spawnTimer + dt) nv.particles g).2.1.map fun p =>
          p.update dt bs.intensity nv.canvasWidth nv.canvasHeight)
    have h2 := spawnLoop_length nv.canvasWidth nv.canvasHeight nv.palette bs.intensity
      (nv.spawnRate / (1 + bs.intensity * 2)) (nv.maxParticles - nv.particles.length)
      (nv.spawnTimer + dt) nv.particles g
    rw [List.length_map] at h1
    have h4 : nv.particles.length + (nv.maxParticles - nv.particles.length) =
        nv.maxParticles := by omega
    omega

/-- Concrete instantiation of the nebula invariants on the empty 100 by 100
field at delta time 0. -/
theorem claim_C5_particle_invariants_witness :
    (nebDemo.particles.length ≤ nebDemo.maxParticles ∧
      0 ≤ nebDemo.canvasWidth ∧ 0 ≤ nebDemo.canvasHeight) ∧
    ((∀ p ∈ ((nebulaUpdate nebDemo bsDemo 0 rngZero).1).particles,
      0 < p.life ∧
      0 ≤ p.position.x ∧ p.position.x ≤ nebDemo.canvasWidth ∧
      0 ≤ p.position.y ∧ p.position.y ≤ nebDemo.canvasHeight) ∧
    ((nebulaUpdate nebDemo bsDemo 0 rngZero).1).particles.length ≤ nebDemo.maxParticles ∧
    (∀ (w h : ℝ) (g2 : Rng), ((nebulaInit w h g2).1).maxParticles = 1500)) := by
  have hlen : nebDemo.particles.length ≤ nebDemo.maxParticles := by
    simp [nebDemo]
  have hw : (0:ℝ) ≤ nebDemo.canvasWidth := by
    simp [nebDemo]
  have hh : (0:ℝ) ≤ nebDemo.canvasHeight := by
    simp [nebDemo]
  exact ⟨⟨hlen, hw, hh⟩, claim_C5_particle_invariants nebDemo bsDemo 0 rngZero hlen hw hh⟩

/-- Claim C6 (amended): Particle.update has no guard on the delta time.
With deltaTimeSeconds = 0 the motion state is indeed unchanged provided the
acceleration is zero (as it always is after a previous update, since forces
are zeroed each tick), the speed does not exceed the cap 2, and the position
is inside the canvas; but this is a consequence of the arithmetic, not of a
guard, and a negative delta time does change the motion state (see the
counterexample, where age decreases). -/
theorem claim_C6_zero_dt_motion (p : Particle) (bi w h : ℝ)
    (hacc : p.acceleration = ⟨0, 0⟩)
    (hvel : p.velocity.x * p.velocity.x + p.velocity.y * p.velocity.y ≤ 4)
    (hx0 : 0 ≤ p.position.x) (hx1 : p.position.x ≤ w)
    (hy0 : 0 ≤ p.position.y) (hy1 : p.position.y ≤ h) :
    (p.update 0 bi w h).position = p.position ∧
    (p.update 0 bi w h).velocity = p.velocity ∧
    (p.update 0 bi w h).age = p.age := by
  have hadd : p.velocity.add ⟨0, 0⟩ = p.velocity := by
    simp [Vector2.add]
  have hmag : (p.velocity).magnitude ≤ 2 := by
    unfold Vector2.magnitude
    calc Real.sqrt (p.velocity.x * p.velocity.x + p.velocity.y * p.velocity.y)
        ≤ Real.sqrt 4 := Real.sqrt_le_sqrt hvel
      _ = 2 := by
          rw [show (4:ℝ) = 2 ^ 2 by norm_num, Real.sqrt_sq (by norm_num : (0:ℝ) ≤ 2)]
  have hlim : (p.velocity.add p.acceleration).limit 2 = p.velocity := by
    rw [hacc, hadd]
    unfold Vector2.limit
    rw [if_neg (not_lt.mpr hmag)]
  have h1 : ¬ (p.position.x < 0) := not_lt.mpr hx0
  have h2 : ¬ (p.position.x > w) := not_lt.mpr hx1
  have h3 : ¬ (p.position.y < 0) := not_lt.mpr hy0
  have h4 : ¬ (p.position.y > h) := not_lt.mpr hy1
  simp only [Particle.update]
  rw [hlim]
  simp [Vector2.add, Vector2.multiply, h1, h2, h3, h4]

/-- Counterexample input for the claim as stated: with delta time -1 the
particle's age changes (there is no guard before the integration), so a
non-positive delta time is not a motion no-op. -/
theorem claim_C6_zero_dt_motion_counterexample :
    (particleDemo.update (-1) 0.5 100 100).age ≠ particleDemo.age := by
  simp [Particle.update, particleDemo]

/-- Concrete instantiation of the zero-delta-time behaviour on the resting
demo particle. -/
theorem claim_C6_zero_dt_motion_witness :
    (particleDemo.acceleration = ⟨0, 0⟩ ∧
     particleDemo.velocity.x * particleDemo.velocity.x +
       particleDemo.velocity.y * particleDemo.velocity.y ≤ 4 ∧
     0 ≤ particleDemo.position.x ∧ particleDemo.position.x ≤ 100 ∧
     0 ≤ particleDemo.position.y ∧ particleDemo.position.y ≤ 100) ∧
    ((particleDemo.update 0 0.5 100 100).position = particleDemo.position ∧
     (particleDemo.update 0 0.5 100 100).velocity = particleDemo.velocity ∧
     (particleDemo.update 0 0.5 100 100).age = particleDemo.age) := by
  have hacc : particleDemo.acceleration = ⟨0, 0⟩ := rfl
  have hvel : particleDemo.velocity.x * particleDemo.velocity.x +
      particleDemo.velocity.y * particleDemo.velocity.y ≤ 4 := by
    simp [particleDemo]
  have hx0 : (0:ℝ) ≤ particleDemo.position.x := by
    simp [particleDemo]
  have hx1 : particleDemo.position.x ≤ 100 := by
    simp [particleDemo]
    norm_num
  have hy0 : (0:ℝ) ≤ particleDemo.position.y := by
    simp [particleDemo]
  have hy1 : particleDemo.position.y ≤ 100 := by
    simp [particleDemo]
    norm_num
  exact ⟨⟨hacc, hvel, hx0, hx1, hy0, hy1⟩,
    claim_C6_zero_dt_motion particleDemo 0.5 100 100 hacc hvel hx0 hx1 hy0 hy1⟩

/-! ## Theorems: audio engine -/

/-- Claim C7 (amended): mute ramps the master gain target to 0 and leaves
every per-parameter target (breath tone frequency and gain, filter cutoff,
shimmer gain and frequency, drone, and the breath-frequency smoothing
state) untouched; unmute, however, re-targets the master gain to the fixed
default 0.3 rather than the pre-mute level (see the counterexample). -/
theorem claim_C7_mute_targets (s : BreathingSynth) :
    (synthMute s).masterGainTarget = 0 ∧
    (synthMute s).breathFreqTarget = s.breathFreqTarget ∧
    (synthMute s).breathGainTarget = s.breathGainTarget ∧
    (synthMute s).filterFreqTarget = s.filterFreqTarget ∧
    (synthMute s).shimmerGainTarget = s.shimmerGainTarget ∧
    (synthMute s).shimmerFreqTarget = s.shimmerFreqTarget ∧
    (synthMute s).droneFreqTarget = s.droneFreqTarget ∧
    (synthMute s).droneGainTarget = s.droneGainTarget ∧
    (synthMute s).currentBreathFreq = s.currentBreathFreq ∧
    (synthMute s).targetBreathFreq = s.targetBreathFreq ∧
    (synthUnmute s).masterGainTarget = 0.3 := by
  refine ⟨?_, rfl, rfl, rfl, rfl, rfl, rfl, rfl, rfl, rfl, ?_⟩
  · norm_num [synthMute, synthSetVolume, clamp, min_def, max_def]
  · norm_num [synthUnmute, synthSetVolume, clamp, min_def, max_def]

/-- Counterexample input for the unmute half of the claim as stated: after
setVolume(0.7), mute() then unmute() leaves the master target at the
default 0.3, not at the prior audible level 0.7. -/
theorem claim_C7_mute_targets_counterexample :
    (synthUnmute (synthMute (synthSetVolume initialSynth 0.7))).masterGainTarget ≠
      (synthSetVolume initialSynth 0.7).masterGainTarget := by
  norm_num [synthUnmute, synthMute, synthSetVolume, clamp, min_def, max_def,
    initialSynth, synthInitNodes]

/-- Claim C8: audio state-machine misuse is a safe no-op: starting an
already playing synth or engine changes nothing (so two starts in a row
leave exactly one started generator set), stopping an already stopped synth
or engine changes nothing, and updating while stopped changes no audio
parameter. -/
theorem claim_C8_engine_idempotence (s : BreathingSynth) (e : AudioEngine)
    (bs : BreathState) (now : ℝ) :
    (s.isPlaying = true → synthStart s = s) ∧
    (s.isPlaying = false → synthStop s = s ∧ synthUpdate s bs now = s) ∧
    (s.isPlaying = false →
      synthStart (synthStart s) = synthStart s ∧
      (synthStart (synthStart s)).activeGeneratorSets = s.activeGeneratorSets + 1) ∧
    (e.isPlaying = true → engineStart e = e) ∧
    (e.isPlaying = false → engineStop e = e ∧ engineUpdate e bs now = e) := by
  refine ⟨fun h => ?_, fun h => ⟨?_, ?_⟩, fun h => ⟨?_, ?_⟩, fun h => ?_, fun h => ⟨?_, ?_⟩⟩
  · simp [synthStart, h]
  · simp [synthStop, h]
  · simp [synthUpdate, h]
  · simp [synthStart, h]
  · simp [synthStart, h]
  · simp [engineStart, h]
  · simp [engineStop, h]
  · simp [engineUpdate, h]

/-- Concrete instantiation of the idempotence properties on the freshly
constructed synth. -/
theorem claim_C8_engine_idempotence_witness :
    initialSynth.isPlaying = false ∧
    (synthStop initialSynth = initialSynth ∧
     synthUpdate initialSynth bsDemo 0 = initialSynth) ∧
    (synthStart (synthStart initialSynth) = synthStart initialSynth ∧
     (synthStart (synthStart initialSynth)).activeGeneratorSets =
       initialSynth.activeGeneratorSets + 1) := by
  have h : initialSynth.isPlaying = false := rfl
  have hc := claim_C8_engine_idempotence initialSynth
    { synth := initialSynth, isPlaying := false, isMuted := false } bsDemo 0
  exact ⟨h, hc.2.1 h, hc.2.2.1 h⟩

end BreathingCosmos
